import Mathlib

/-!
Verification of the request-admission and safety-filtering pipeline of the
Bubbles-AI-GPT static HTTP server (`server.py`): the sliding-window rate
limiter with its permanent IP ban set, the path safety filter, the header
policy, and the per-method dispatchers (`do_GET`, `do_POST`, `do_OPTIONS`).

The embedding is shallow: Python dictionaries keyed by client IP become Lean
functions `String → _`, wall-clock timestamps become rationals, and the
filesystem consulted by the path filter becomes an explicit oracle
`String → FsAnswer` (a lookup can also signal an OSError/ValueError, which
the source catches).  String primitives used by the source
(`str.split('/')`, `str.lstrip('/')`, `str.lower()`, `str.endswith`,
`pathlib.Path.suffix`, `urllib.parse.unquote`, `urllib.parse.urlparse(...).path`)
are modelled as structurally recursive functions over `List Char` so that
every definition evaluates by kernel reduction.
-/

set_option maxRecDepth 16384

namespace BubblesServer

/-- Model of Python `s.lstrip('/')`: drop every leading slash. -/
def pyLstripSlash (s : String) : String :=
  String.mk (s.data.dropWhile (fun c => c = '/'))

/-- Auxiliary for `pySplitSlash`: accumulates the current segment (reversed). -/
def splitSlashAux : List Char → List Char → List String
  | [], acc => [String.mk acc.reverse]
  | c :: rest, acc =>
      if c = '/' then String.mk acc.reverse :: splitSlashAux rest []
      else splitSlashAux rest (c :: acc)

/-- Model of Python `s.split('/')`: empty segments are kept, `""` splits to `[""]`. -/
def pySplitSlash (s : String) : List String :=
  splitSlashAux s.data []

/-- Model of Python `s.lower()` (ASCII case folding, as used on extensions). -/
def pyLower (s : String) : String :=
  String.mk (s.data.map Char.toLower)

/-- Model of Python `s.endswith(suffix)`. -/
def pyEndsWith (s suffix : String) : Bool :=
  suffix.data.isSuffixOf s.data

/-- The final path component as `pathlib` sees it: empty and single-dot
components are dropped by `Path`'s normalisation before `name` is taken. -/
def path_name (p : String) : String :=
  ((pySplitSlash p).filter (fun c => !(c == "") && !(c == "."))).getLastD ""

/-- The extension starting at the LAST dot of the tail of the name, or `none`
when no dot with a nonempty remainder occurs there (auxiliary for
`path_suffix`). -/
def lastDotSuffix : List Char → Option (List Char)
  | [] => none
  | c :: rest =>
      match lastDotSuffix rest with
      | some s => some s
      | none => if c = '.' ∧ rest ≠ [] then some ('.' :: rest) else none

/-- Model of Python `pathlib.Path(p).suffix`: the extension of the final
component; a dot in first position (hidden files like `.env`) or in last
position contributes no suffix. -/
def path_suffix (p : String) : String :=
  match (path_name p).data with
  | [] => ""
  | _ :: rest =>
      match lastDotSuffix rest with
      | some s => String.mk s
      | none => ""

/-- Numeric value of a hex digit, or `none` (auxiliary for `unquote`). -/
def hexVal (c : Char) : Option Nat :=
  if '0' ≤ c ∧ c ≤ '9' then some (c.toNat - '0'.toNat)
  else if 'a' ≤ c ∧ c ≤ 'f' then some (c.toNat - 'a'.toNat + 10)
  else if 'A' ≤ c ∧ c ≤ 'F' then some (c.toNat - 'A'.toNat + 10)
  else none

/-- Single left-to-right pass of percent-decoding (auxiliary for `unquote`):
a `%` followed by two hex digits becomes the denoted byte, anything else is
copied literally.  Decoding is applied exactly once — the output is never
re-scanned. -/
def unquoteChars : List Char → List Char
  | '%' :: a :: b :: rest =>
      match hexVal a, hexVal b with
      | some x, some y => Char.ofNat (16 * x + y) :: unquoteChars rest
      | _, _ => '%' :: unquoteChars (a :: b :: rest)
  | c :: rest => c :: unquoteChars rest
  | [] => []

/-- Model of Python `urllib.parse.unquote` restricted to the ASCII range used
by this server: each valid `%XX` escape is replaced by the character with code
`XX`, malformed escapes are left literal, and the result is not re-decoded.
(UTF-8 multi-byte sequences are out of scope; every input considered here
decodes to code points below 128.) -/
def unquote (s : String) : String :=
  String.mk (unquoteChars s.data)

/-- Model of `urllib.parse.urlparse(target).path` for origin-form request
targets: everything before the first `#` (fragment) and then before the first
`?` (query) (auxiliary for `urlparse_path`). -/
def takeUntilChar (stop : Char) : List Char → List Char
  | [] => []
  | c :: rest => if c = stop then [] else c :: takeUntilChar stop rest

/-- The `.path` component of the parsed request target. -/
def urlparse_path (s : String) : String :=
  String.mk (takeUntilChar '?' (takeUntilChar (Char.ofNat 35) s.data))

/-- `BLOCKED_PATHS` from server.py line 25. -/
def BLOCKED_PATHS : List String :=
  ["..", ".env", ".git", "__pycache__", ".vscode", "node_modules"]

/-- `ALLOWED_EXTENSIONS` from server.py line 24. -/
def ALLOWED_EXTENSIONS : List String :=
  [".html", ".js", ".css", ".json", ".txt", ".ico", ".svg", ".png", ".jpg",
   ".jpeg", ".gif", ".woff", ".woff2", ".ttf", ".eot"]

/-- What the filesystem says about a path when the filter probes it
(`Path(clean_path).exists() and Path(clean_path).is_file()`): the probe can
raise `OSError`/`ValueError` (`err`), report that no regular file is there
(`absent`), or report an existing regular file (`file`). -/
inductive FsAnswer where
  | err : FsAnswer
  | absent : FsAnswer
  | file : FsAnswer
deriving DecidableEq

/-- The local variable `path_parts = clean_path.split('/')` of
`is_safe_path`, as a function of the raw `path` argument. -/
def path_parts (path : String) : List String :=
  pySplitSlash (pyLstripSlash path)

/-- The local variable `extension = file_path.suffix.lower()` of
`is_safe_path`, as a function of the raw `path` argument. -/
def extension_of (path : String) : String :=
  pyLower (path_suffix (pyLstripSlash path))

/-- The body of `is_safe_path` (server.py lines 44-74) before the
`try/except` wrapper: `Except.error ()` is the filter raising
`ValueError`/`OSError` at the filesystem probe.  The source's local
variables `clean_path = path.lstrip('/')`, `path_parts` and `extension` are
inlined through `pyLstripSlash`, `path_parts` and `extension_of`. -/
def is_safe_path_core (fs : String → FsAnswer) (path : String) : Except Unit Bool :=
  if path = "/" ∨ path = "" then .ok true
  else if pyLstripSlash path = "" then .ok true
  else if ∃ b ∈ BLOCKED_PATHS, b ∈ path_parts path then .ok false
  else
    match fs (pyLstripSlash path) with
    | .err => .error ()
    | .file =>
        if extension_of path ≠ "" ∧ extension_of path ∉ ALLOWED_EXTENSIONS then .ok false
        else if ".." ∈ path_parts path then .ok false
        else .ok true
    | .absent =>
        if ".." ∈ path_parts path then .ok false
        else .ok true

/-- `is_safe_path` with its `except (ValueError, OSError): return False`
wrapper: a filesystem fault is converted into a deny decision. -/
def is_safe_path (fs : String → FsAnswer) (path : String) : Bool :=
  match is_safe_path_core fs path with
  | .ok b => b
  | .error _ => false

/-- `RATE_LIMIT_WINDOW` (server.py line 22), in seconds. -/
def RATE_LIMIT_WINDOW : ℚ := 60

/-- `RATE_LIMIT_MAX_REQUESTS` (server.py line 23). -/
def RATE_LIMIT_MAX_REQUESTS : Nat := 100

/-- `MAX_CONTENT_LENGTH` (server.py line 21): 10 MiB. -/
def MAX_CONTENT_LENGTH : Int := 10 * 1024 * 1024

/-- The rate limiter's shared mutable state: the module-level dictionary
`request_counts` (per-IP list of request timestamps; a missing key reads as
`[]`, matching `request_counts.get(client_ip, [])`) and the set `blocked_ips`
(membership as a Boolean predicate). -/
structure RateState where
  request_counts : String → List ℚ
  blocked_ips : String → Bool

/-- The three ways `rate_limit_check` can come out: `allowed` is returning
`True`; `denied_banned` is the early `429 Too Many Requests - IP Blocked`
for an already-banned IP; `denied_newly_banned` is the `429` that also adds
the IP to `blocked_ips`. -/
inductive Decision where
  | allowed : Decision
  | denied_banned : Decision
  | denied_newly_banned : Decision
deriving DecidableEq

/-- The "Clean old entries" step of `rate_limit_check` (server.py lines
107-109): the stored window filtered down to timestamps strictly greater
than `cutoff_time = now - RATE_LIMIT_WINDOW`. -/
def pruned_window (s : RateState) (client_ip : String) (now : ℚ) : List ℚ :=
  (s.request_counts client_ip).filter
    (fun req_time => decide (now - RATE_LIMIT_WINDOW < req_time))

/-- The "Add current request" step (server.py lines 111-114): the pruned
window with `now` appended.  (The `if client_ip not in request_counts`
guard in the source is dead — the assignment on line 109 always creates the
key first.) -/
def new_window (s : RateState) (client_ip : String) (now : ℚ) : List ℚ :=
  pruned_window s client_ip now ++ [now]

/-- `rate_limit_check` (server.py lines 97-123), with the wall clock
(`time.time()`) passed in as `now`.  Mirrors the source: banned IPs are
rejected before any window bookkeeping; otherwise the window is pruned and
`now` appended (`new_window`), and a window longer than
`RATE_LIMIT_MAX_REQUESTS` bans the IP and rejects the request. -/
def rate_limit_check (s : RateState) (client_ip : String) (now : ℚ) :
    Decision × RateState :=
  if s.blocked_ips client_ip then
    (.denied_banned, s)
  else if RATE_LIMIT_MAX_REQUESTS < (new_window s client_ip now).length then
    (.denied_newly_banned,
      ⟨fun k => if k = client_ip then new_window s client_ip now else s.request_counts k,
       fun k => if k = client_ip then true else s.blocked_ips k⟩)
  else
    (.allowed,
      ⟨fun k => if k = client_ip then new_window s client_ip now else s.request_counts k,
       s.blocked_ips⟩)

/-- A sequence of further `rate_limit_check` calls, each a pair of client IP
and timestamp, threaded through the shared state. -/
def runCalls (s : RateState) (calls : List (String × ℚ)) : RateState :=
  calls.foldl (fun st c => (rate_limit_check st c.1 c.2).2) s

/-- The `Content-Length` request header as the source consumes it:
`absent` covers a missing header and the empty string (both falsy in
`if content_length:`); `value n` is a header `int()` parses to `n`;
`malformed` is a header on which `int()` raises `ValueError`. -/
inductive ContentLengthHeader where
  | absent : ContentLengthHeader
  | value : Int → ContentLengthHeader
  | malformed : ContentLengthHeader
deriving DecidableEq

/-- The parts of an incoming request the pipeline reads: the raw request
target `self.path`, the two inspected headers, and the peer address
`self.client_address[0]`. -/
structure Request where
  path : String
  content_length : ContentLengthHeader
  user_agent : String
  client_ip : String

/-- `sanitize_headers` (server.py lines 76-95): `none` is the `return True`
path; `some c` is `send_error(c, ...)` followed by `return False`.  An
oversized parsed `Content-Length` gives 413, an unparsable one 400, and a
`User-Agent` longer than 500 characters 400.  The source's early returns in
the Content-Length block are flattened into the match: a 413 or a parse
failure returns before the User-Agent check is reached. -/
def sanitize_headers (r : Request) : Option Nat :=
  match r.content_length with
  | .value n =>
      if MAX_CONTENT_LENGTH < n then some 413
      else if 500 < r.user_agent.length then some 400 else none
  | .malformed => some 400
  | .absent => if 500 < r.user_agent.length then some 400 else none

/-- The single quote character, kept out of string literals. -/
def sq : String := String.singleton (Char.ofNat 39)

/-- `s` wrapped in single quotes, as CSP source keywords are written. -/
def quoted (s : String) : String := sq ++ s ++ sq

/-- The `Content-Security-Policy` value built at server.py lines 192-202. -/
def csp_value : String :=
  "default-src " ++ quoted "self" ++ "; " ++
  "script-src " ++ quoted "self" ++ " " ++ quoted "unsafe-inline" ++
    " https://js.puter.com; " ++
  "style-src " ++ quoted "self" ++ " " ++ quoted "unsafe-inline" ++ "; " ++
  "connect-src " ++ quoted "self" ++ " https: wss:; " ++
  "img-src " ++ quoted "self" ++ " data: https:; " ++
  "font-src " ++ quoted "self" ++ " data:; " ++
  "object-src " ++ quoted "none" ++ "; " ++
  "base-uri " ++ quoted "self" ++ "; " ++
  "form-action " ++ quoted "self"

/-- The fixed header (name, value) pairs `end_headers` sends on every
response (server.py lines 176-203), in source order. -/
def SECURITY_HEADERS : List (String × String) :=
  [("Access-Control-Allow-Origin", "*"),
   ("Access-Control-Allow-Methods", "GET, POST, OPTIONS"),
   ("Access-Control-Allow-Headers", "Content-Type, Authorization"),
   ("Access-Control-Max-Age", "86400"),
   ("X-Content-Type-Options", "nosniff"),
   ("X-Frame-Options", "DENY"),
   ("X-XSS-Protection", "1; mode=block"),
   ("Referrer-Policy", "strict-origin-when-cross-origin"),
   ("Permissions-Policy", "geolocation=(), microphone=(), camera=()"),
   ("Content-Security-Policy", csp_value)]

/-- The extensions that make `end_headers` choose the cacheable
`Cache-Control` (the tuple at server.py line 206). -/
def CACHE_EXTS : List String :=
  [".css", ".js", ".png", ".jpg", ".ico", ".woff", ".woff2"]

/-- The `Cache-Control` value `end_headers` picks from the raw request
target `self.path` (server.py lines 205-209). -/
def cache_control (path : String) : String :=
  if CACHE_EXTS.any (fun ext => pyEndsWith path ext) then "public, max-age=3600"
  else "no-cache, no-store, must-revalidate"

/-- Every header pair the overridden `end_headers` adds for a request whose
raw target is `path`; it is invoked on every response the handler writes,
error responses included. -/
def end_headers_added (path : String) : List (String × String) :=
  SECURITY_HEADERS ++ [("Cache-Control", cache_control path)]

/-- How a request leaves the pipeline: `err c` is `send_error(c, _)`;
`shutdownAck` is the 200 plaintext acknowledgement of `GET /shutdown` that
then triggers the asynchronous server shutdown; `serveFile` is delegation to
`SimpleHTTPRequestHandler.do_GET` (the file-serving collaborator, which sees
the handler's raw `self.path`); `ok200Empty` is the bodyless 200 of
`do_OPTIONS`. -/
inductive Outcome where
  | err : Nat → Outcome
  | shutdownAck : Outcome
  | serveFile : String → Outcome
  | ok200Empty : Outcome
deriving DecidableEq

/-- A finished response: its outcome plus the header pairs `end_headers`
attached on the way out. -/
structure Response where
  outcome : Outcome
  headers : List (String × String)

/-- `do_GET` (server.py lines 125-152): rate limit, header sanitisation,
percent-decoding of the parsed path, the `/shutdown` control endpoint, the
path safety check, and finally delegation to the file-serving collaborator.
The source's local `clean_path = urllib.parse.unquote(parsed_path.path)` is
inlined as `unquote (urlparse_path r.path)`. -/
def do_GET (fs : String → FsAnswer) (s : RateState) (now : ℚ) (r : Request) :
    Response × RateState :=
  match rate_limit_check s r.client_ip now with
  | (.allowed, s1) =>
      match sanitize_headers r with
      | some c => (⟨.err c, end_headers_added r.path⟩, s1)
      | none =>
          if unquote (urlparse_path r.path) = "/shutdown" then
            (⟨.shutdownAck, end_headers_added r.path⟩, s1)
          else if is_safe_path fs (unquote (urlparse_path r.path)) then
            (⟨.serveFile r.path, end_headers_added r.path⟩, s1)
          else
            (⟨.err 403, end_headers_added r.path⟩, s1)
  | (_, s1) => (⟨.err 429, end_headers_added r.path⟩, s1)

/-- `do_POST` (server.py lines 154-166): after the rate and header checks,
every POST is answered `405 Method Not Allowed`. -/
def do_POST (s : RateState) (now : ℚ) (r : Request) : Response × RateState :=
  match rate_limit_check s r.client_ip now with
  | (.allowed, s1) =>
      match sanitize_headers r with
      | some c => (⟨.err c, end_headers_added r.path⟩, s1)
      | none => (⟨.err 405, end_headers_added r.path⟩, s1)
  | (_, s1) => (⟨.err 429, end_headers_added r.path⟩, s1)

/-- `do_OPTIONS` (server.py lines 168-174): only the rate limit guards the
empty 200 preflight response — `sanitize_headers` is not called. -/
def do_OPTIONS (s : RateState) (now : ℚ) (r : Request) : Response × RateState :=
  match rate_limit_check s r.client_ip now with
  | (.allowed, s1) => (⟨.ok200Empty, end_headers_added r.path⟩, s1)
  | (_, s1) => (⟨.err 429, end_headers_added r.path⟩, s1)

/-- The rate limiter's state at process startup: both maps empty. -/
def rs_empty : RateState := ⟨fun _ => [], fun _ => false⟩

/-- If the filter body comes out `.ok b`, the wrapped filter returns `b`. -/
theorem is_safe_path_of_core {fs : String → FsAnswer} {path : String} {b : Bool}
    (h : is_safe_path_core fs path = .ok b) : is_safe_path fs path = b := by
  unfold is_safe_path
  rw [h]

/-- Claim C3: after percent-decoding, `/../etc/passwd`, `/a/../../b` and
`/%2e%2e/secret` are all rejected by the path safety check, and in general
any decoded path one of whose segments equals `..` or another blocked-path
entry is denied, whatever the filesystem contains. -/
theorem claim_traversal_denied :
    (∀ fs, is_safe_path fs (unquote "/../etc/passwd") = false) ∧
    (∀ fs, is_safe_path fs (unquote "/a/../../b") = false) ∧
    (∀ fs, is_safe_path fs (unquote "/%2e%2e/secret") = false) ∧
    (∀ fs path, (∃ b ∈ BLOCKED_PATHS, b ∈ path_parts path) →
      is_safe_path fs path = false) := by
  refine ⟨fun fs => rfl, fun fs => rfl, fun fs => rfl, ?_⟩
  intro fs path h
  have hroot : ¬(path = "/" ∨ path = "") := by
    rintro (h1 | h1) <;> rw [h1] at h <;> exact absurd h (by decide)
  have hclean : ¬(pyLstripSlash path = "") := by
    intro h1
    unfold path_parts at h
    rw [h1] at h
    exact absurd h (by decide)
  refine is_safe_path_of_core ?_
  unfold is_safe_path_core
  rw [if_neg hroot, if_neg hclean, if_pos h]

/-- Witness for C3: the general blocked-segment clause applied to a `.git`
access over a filesystem with no such file. -/
theorem claim_traversal_denied_witness :
    is_safe_path (fun _ => FsAnswer.absent) "/.git/config" = false :=
  claim_traversal_denied.2.2.2 (fun _ => FsAnswer.absent) "/.git/config" (by decide)

/-- Claim C4: a path probing to an existing regular file with a nonempty
extension outside the allowlist is denied; a path probing to no existing
regular file passes the filter whenever no blocked segment occurs; an
existing `config.env` or `server.py` is denied while `style.css` or
`logo.png` is allowed. -/
theorem claim_extension_allowlist :
    (∀ fs path, path ≠ "/" → path ≠ "" → pyLstripSlash path ≠ "" →
      fs (pyLstripSlash path) = FsAnswer.file →
      extension_of path ≠ "" → extension_of path ∉ ALLOWED_EXTENSIONS →
      is_safe_path fs path = false) ∧
    (∀ fs path, fs (pyLstripSlash path) = FsAnswer.absent →
      (¬∃ b ∈ BLOCKED_PATHS, b ∈ path_parts path) →
      is_safe_path fs path = true) ∧
    is_safe_path (fun _ => FsAnswer.file) "/config.env" = false ∧
    is_safe_path (fun _ => FsAnswer.file) "/server.py" = false ∧
    is_safe_path (fun _ => FsAnswer.file) "/style.css" = true ∧
    is_safe_path (fun _ => FsAnswer.file) "/logo.png" = true := by
  refine ⟨?_, ?_, by decide, by decide, by decide, by decide⟩
  · intro fs path h1 h2 h3 hfs hne hni
    have hroot : ¬(path = "/" ∨ path = "") := by rintro (h | h) <;> [exact h1 h; exact h2 h]
    refine is_safe_path_of_core ?_
    unfold is_safe_path_core
    rw [if_neg hroot, if_neg h3]
    by_cases hb : ∃ b ∈ BLOCKED_PATHS, b ∈ path_parts path
    · rw [if_pos hb]
    · rw [if_neg hb, hfs]
      show (if extension_of path ≠ "" ∧ extension_of path ∉ ALLOWED_EXTENSIONS then
          Except.ok false
        else if ".." ∈ path_parts path then Except.ok false
        else Except.ok true) = Except.ok false
      rw [if_pos ⟨hne, hni⟩]
  · intro fs path hfs hnb
    by_cases h1 : path = "/" ∨ path = ""
    · refine is_safe_path_of_core ?_
      unfold is_safe_path_core
      rw [if_pos h1]
    · by_cases h2 : pyLstripSlash path = ""
      · refine is_safe_path_of_core ?_
        unfold is_safe_path_core
        rw [if_neg h1, if_pos h2]
      · have hdd : ".." ∉ path_parts path := fun hc => hnb ⟨"..", by decide, hc⟩
        refine is_safe_path_of_core ?_
        unfold is_safe_path_core
        rw [if_neg h1, if_neg h2, if_neg hnb, hfs]
        show (if ".." ∈ path_parts path then Except.ok false else Except.ok true) =
          Except.ok true
        rw [if_neg hdd]

/-- Witness for C4: the extension-allowlist clause denies an existing
`notes.bin`. -/
theorem claim_extension_allowlist_witness :
    is_safe_path (fun _ => FsAnswer.file) "/notes.bin" = false :=
  claim_extension_allowlist.1 (fun _ => FsAnswer.file) "/notes.bin"
    (by decide) (by decide) (by decide) rfl (by decide) (by decide)

/-- Claim C8: a filesystem fault inside the filter body is caught and turned
into a deny; the wrapped filter is total (always returns a Boolean), and in
particular a path that reaches the filesystem probe and faults there is
denied. -/
theorem claim_fs_error_deny :
    (∀ fs path, is_safe_path_core fs path = .error () → is_safe_path fs path = false) ∧
    (∀ fs path, is_safe_path fs path = true ∨ is_safe_path fs path = false) ∧
    (∀ fs path, path ≠ "/" → path ≠ "" → pyLstripSlash path ≠ "" →
      (¬∃ b ∈ BLOCKED_PATHS, b ∈ path_parts path) →
      fs (pyLstripSlash path) = FsAnswer.err → is_safe_path fs path = false) := by
  refine ⟨?_, ?_, ?_⟩
  · intro fs path h
    unfold is_safe_path
    rw [h]
  · intro fs path
    cases h : is_safe_path fs path
    · right; rfl
    · left; rfl
  · intro fs path h1 h2 h3 h4 h5
    have hroot : ¬(path = "/" ∨ path = "") := by rintro (h | h) <;> [exact h1 h; exact h2 h]
    have hcore : is_safe_path_core fs path = .error () := by
      unfold is_safe_path_core
      rw [if_neg hroot, if_neg h3, if_neg h4, h5]
    unfold is_safe_path
    rw [hcore]

/-- Witness for C8: a probe that raises is denied. -/
theorem claim_fs_error_deny_witness :
    is_safe_path (fun _ => FsAnswer.err) "/data/report.pdf" = false :=
  claim_fs_error_deny.2.2 (fun _ => FsAnswer.err) "/data/report.pdf"
    (by decide) (by decide) (by decide) (by decide) rfl

/-- Claim C10: percent-decoding happens exactly once before the safety
check, so the doubly-encoded `/%252e%252e/secret` decodes to the segments
`%2e%2e` and `secret`, matches neither `..` nor any blocked entry, is judged
safe, and a GET for it is handed to the file-serving collaborator. -/
theorem claim_single_decode :
    unquote "/%252e%252e/secret" = "/%2e%2e/secret" ∧
    path_parts (unquote "/%252e%252e/secret") = ["%2e%2e", "secret"] ∧
    ".." ∉ path_parts (unquote "/%252e%252e/secret") ∧
    (¬∃ b ∈ BLOCKED_PATHS, b ∈ path_parts (unquote "/%252e%252e/secret")) ∧
    is_safe_path (fun _ => FsAnswer.absent) (unquote "/%252e%252e/secret") = true ∧
    (do_GET (fun _ => FsAnswer.absent) rs_empty 0
        ⟨"/%252e%252e/secret", .absent, "", "203.0.113.7"⟩).1.outcome =
      Outcome.serveFile "/%252e%252e/secret" := by
  exact ⟨by decide, by decide, by decide, by decide, by decide, by decide⟩

/-- Claim C1: for a client not in the ban set, the admit call prunes its
window to timestamps strictly greater than `now - RATE_LIMIT_WINDOW` and
appends `now`; it denies (newly banning the client) exactly when the
resulting window holds more than `RATE_LIMIT_MAX_REQUESTS` timestamps, and
allows (banning nobody) otherwise. -/
theorem claim_rate_admission (s : RateState) (ip : String) (now : ℚ)
    (h : s.blocked_ips ip = false) :
    ((rate_limit_check s ip now).2.request_counts ip = new_window s ip now) ∧
    (new_window s ip now =
      (s.request_counts ip).filter
        (fun req_time => decide (now - RATE_LIMIT_WINDOW < req_time)) ++ [now]) ∧
    ((rate_limit_check s ip now).1 = Decision.allowed ↔
      (new_window s ip now).length ≤ RATE_LIMIT_MAX_REQUESTS) ∧
    ((rate_limit_check s ip now).1 = Decision.denied_newly_banned ↔
      RATE_LIMIT_MAX_REQUESTS < (new_window s ip now).length) ∧
    ((rate_limit_check s ip now).2.blocked_ips ip = true ↔
      RATE_LIMIT_MAX_REQUESTS < (new_window s ip now).length) := by
  unfold rate_limit_check
  rw [h]
  by_cases hlen : RATE_LIMIT_MAX_REQUESTS < (new_window s ip now).length
  · rw [if_neg (by simp), if_pos hlen]
    refine ⟨by simp, rfl, ?_, ?_, ?_⟩
    · simp [hlen, Nat.not_le.mpr hlen]
    · simp [hlen]
    · simp [hlen]
  · rw [if_neg (by simp), if_neg hlen]
    refine ⟨by simp, rfl, ?_, ?_, ?_⟩
    · simp [Nat.not_lt.mp hlen]
    · simp [hlen]
    · simp [h, hlen]

/-- Witness for C1: a fresh client's first request is admitted. -/
theorem claim_rate_admission_witness :
    (rate_limit_check rs_empty "198.51.100.9" 0).1 = Decision.allowed :=
  ((claim_rate_admission rs_empty "198.51.100.9" 0 rfl).2.2.1).mpr (by decide)

/-- The ban branch of `rate_limit_check` returns the state unchanged
(helper shared by C2 and C7). -/
theorem rate_limit_check_blocked (s : RateState) (ip : String) (now : ℚ)
    (h : s.blocked_ips ip = true) :
    rate_limit_check s ip now = (Decision.denied_banned, s) := by
  unfold rate_limit_check
  rw [if_pos h]

/-- Claim C7: for a client already in the ban set the admit call denies
immediately and returns the state unchanged — no window is pruned and no
timestamp is appended, for this client or any other. -/
theorem claim_banned_frame (s : RateState) (ip : String) (now : ℚ)
    (h : s.blocked_ips ip = true) :
    rate_limit_check s ip now = (Decision.denied_banned, s) :=
  rate_limit_check_blocked s ip now h

/-- Witness for C7: a banned address is rejected with the state untouched. -/
theorem claim_banned_frame_witness :
    rate_limit_check ⟨fun _ => [], fun k => decide (k = "203.0.113.9")⟩ "203.0.113.9" 5 =
      (Decision.denied_banned, ⟨fun _ => [], fun k => decide (k = "203.0.113.9")⟩) :=
  claim_banned_frame ⟨fun _ => [], fun k => decide (k = "203.0.113.9")⟩ "203.0.113.9" 5
    (by decide)

/-- One admit call never clears a ban bit (helper for C2). -/
theorem blocked_of_step (s : RateState) (ip : String) (now : ℚ) (k : String)
    (h : s.blocked_ips k = true) :
    ((rate_limit_check s ip now).2).blocked_ips k = true := by
  unfold rate_limit_check
  by_cases hb : s.blocked_ips ip = true
  · rw [if_pos hb]
    exact h
  · rw [if_neg hb]
    by_cases hlen : RATE_LIMIT_MAX_REQUESTS < (new_window s ip now).length
    · rw [if_pos hlen]
      by_cases hk : k = ip
      · simp [hk]
      · simpa [hk] using h
    · rw [if_neg hlen]
      exact h

/-- No sequence of admit calls ever clears a ban bit (helper for C2). -/
theorem blocked_of_runCalls (s : RateState) (calls : List (String × ℚ)) (k : String)
    (h : s.blocked_ips k = true) : (runCalls s calls).blocked_ips k = true := by
  induction calls generalizing s with
  | nil => exact h
  | cons c rest ih => exact ih _ (blocked_of_step s c.1 c.2 k h)

/-- A newly-banning admit call leaves the client's ban bit set (helper for
C2). -/
theorem newly_banned_blocked (s : RateState) (ip : String) (now : ℚ)
    (h : (rate_limit_check s ip now).1 = Decision.denied_newly_banned) :
    ((rate_limit_check s ip now).2).blocked_ips ip = true := by
  unfold rate_limit_check at h ⊢
  by_cases hb : s.blocked_ips ip = true
  · rw [if_pos hb] at h
    exact absurd h (by simp)
  · rw [if_neg hb] at h ⊢
    by_cases hlen : RATE_LIMIT_MAX_REQUESTS < (new_window s ip now).length
    · rw [if_pos hlen]
      simp
    · rw [if_neg hlen] at h
      exact absurd h (by simp)

/-- Claim C2: once an admit call comes back `denied_newly_banned` for a
client, every later admit call for that client — after any interleaved
calls by any clients at any times — is denied via the ban branch; and no
admit call ever removes a member from the ban set. -/
theorem claim_ban_permanent :
    (∀ s ip now, (rate_limit_check s ip now).1 = Decision.denied_newly_banned →
      ∀ calls now2,
        (rate_limit_check (runCalls (rate_limit_check s ip now).2 calls) ip now2).1 =
          Decision.denied_banned) ∧
    (∀ s ip now k, s.blocked_ips k = true →
      ((rate_limit_check s ip now).2).blocked_ips k = true) ∧
    (∀ s calls k, s.blocked_ips k = true →
      (runCalls s calls).blocked_ips k = true) := by
  refine ⟨?_, blocked_of_step, blocked_of_runCalls⟩
  intro s ip now h calls now2
  have h1 := newly_banned_blocked s ip now h
  have h2 := blocked_of_runCalls _ calls ip h1
  rw [rate_limit_check_blocked _ ip now2 h2]

/-- A client with 100 in-window requests on record, about to be banned. -/
def s_hot : RateState :=
  ⟨fun k => if k = "192.0.2.1" then List.replicate 100 (1 : ℚ) else [], fun _ => false⟩

/-- Pruning keeps all 100 of `s_hot`'s fresh timestamps. -/
theorem s_hot_window :
    new_window s_hot "192.0.2.1" 1 = List.replicate 100 (1 : ℚ) ++ [1] := by
  have hcounts : s_hot.request_counts "192.0.2.1" = List.replicate 100 (1 : ℚ) := by
    show (if ("192.0.2.1" : String) = "192.0.2.1" then List.replicate 100 (1 : ℚ) else []) =
      List.replicate 100 (1 : ℚ)
    exact if_pos rfl
  have hfilter :
      List.filter (fun req_time => decide ((1 : ℚ) - RATE_LIMIT_WINDOW < req_time))
        (List.replicate 100 (1 : ℚ)) = List.replicate 100 (1 : ℚ) := by
    rw [List.filter_eq_self]
    intro a ha
    rw [List.eq_of_mem_replicate ha, decide_eq_true_eq]
    norm_num [RATE_LIMIT_WINDOW]
  show pruned_window s_hot "192.0.2.1" 1 ++ [1] = _
  unfold pruned_window
  rw [hcounts, hfilter]

/-- The 101st in-window request gets `s_hot`'s client newly banned. -/
theorem s_hot_newly :
    (rate_limit_check s_hot "192.0.2.1" 1).1 = Decision.denied_newly_banned := by
  unfold rate_limit_check
  rw [if_neg (by decide), if_pos (by rw [s_hot_window]; decide)]

/-- Witness for C2: the just-banned client stays denied after another
client's later request. -/
theorem claim_ban_permanent_witness :
    (rate_limit_check
        (runCalls (rate_limit_check s_hot "192.0.2.1" 1).2 [("198.51.100.2", 500)])
        "192.0.2.1" 1000).1 = Decision.denied_banned :=
  claim_ban_permanent.1 s_hot "192.0.2.1" 1 s_hot_newly [("198.51.100.2", 500)] 1000

/-- Claim C5: every response of every handler carries exactly the fixed
security headers plus a `Cache-Control` computed from the raw request target
alone — it is `public, max-age=3600` exactly when the target ends in one of
the seven cacheable extensions and the no-store value otherwise, independent
of rate-limit, ban, filesystem or error state. -/
theorem claim_header_invariance :
    (∀ fs s now r, (do_GET fs s now r).1.headers = end_headers_added r.path) ∧
    (∀ s now r, (do_POST s now r).1.headers = end_headers_added r.path) ∧
    (∀ s now r, (do_OPTIONS s now r).1.headers = end_headers_added r.path) ∧
    (∀ path, end_headers_added path =
      SECURITY_HEADERS ++ [("Cache-Control", cache_control path)]) ∧
    (∀ path, cache_control path = "public, max-age=3600" ↔
      CACHE_EXTS.any (fun ext => pyEndsWith path ext) = true) ∧
    (∀ path, cache_control path = "public, max-age=3600" ∨
      cache_control path = "no-cache, no-store, must-revalidate") := by
  refine ⟨?_, ?_, ?_, fun path => rfl, ?_, ?_⟩
  · intro fs s now r
    unfold do_GET
    split
    · split
      · rfl
      · split_ifs <;> rfl
    all_goals rfl
  · intro s now r
    unfold do_POST
    split
    · split <;> rfl
    all_goals rfl
  · intro s now r
    unfold do_OPTIONS
    split <;> rfl
  · intro path
    unfold cache_control
    by_cases h : CACHE_EXTS.any (fun ext => pyEndsWith path ext) = true
    · rw [if_pos h]
      exact ⟨fun _ => h, fun _ => rfl⟩
    · rw [if_neg h]
      exact ⟨fun hh => absurd hh (by decide), fun hh => absurd hh h⟩
  · intro path
    unfold cache_control
    by_cases h : CACHE_EXTS.any (fun ext => pyEndsWith path ext) = true
    · rw [if_pos h]
      left
      rfl
    · rw [if_neg h]
      right
      rfl

/-- An OPTIONS request whose `User-Agent` is 501 characters long. -/
def r_bigua : Request :=
  ⟨"/", .absent, String.mk (List.replicate 501 'x'), "198.51.100.77"⟩

/-- Counterexample to C6 as stated: an OPTIONS request violating the
User-Agent bound (its header sanitisation would return 400) is nevertheless
answered with the empty 200 preflight response, because `do_OPTIONS` never
runs the Content-Length/User-Agent validation. -/
theorem claim_size_checks_cex :
    500 < r_bigua.user_agent.length ∧
    sanitize_headers r_bigua = some 400 ∧
    (do_OPTIONS rs_empty 0 r_bigua).1.outcome = Outcome.ok200Empty :=
  ⟨by decide, by decide, by decide⟩

/-- `sanitize_headers` on a request whose Content-Length parsed (helper). -/
theorem sanitize_headers_value (r : Request) (n : Int)
    (h : r.content_length = ContentLengthHeader.value n) :
    sanitize_headers r =
      if MAX_CONTENT_LENGTH < n then some 413
      else if 500 < r.user_agent.length then some 400 else none := by
  unfold sanitize_headers
  rw [h]

/-- `sanitize_headers` on a request whose Content-Length is unparsable
(helper). -/
theorem sanitize_headers_malformed (r : Request)
    (h : r.content_length = ContentLengthHeader.malformed) :
    sanitize_headers r = some 400 := by
  unfold sanitize_headers
  rw [h]

/-- `sanitize_headers` on a request without Content-Length (helper). -/
theorem sanitize_headers_absent (r : Request)
    (h : r.content_length = ContentLengthHeader.absent) :
    sanitize_headers r = if 500 < r.user_agent.length then some 400 else none := by
  unfold sanitize_headers
  rw [h]

/-- Which error code `sanitize_headers` reports, and the header situation
that produced it (helper for C6). -/
theorem sanitize_headers_some (r : Request) (c : Nat)
    (hs : sanitize_headers r = some c) :
    (c = 413 ∧ ∃ n, r.content_length = ContentLengthHeader.value n ∧
      MAX_CONTENT_LENGTH < n) ∨
    (c = 400 ∧
      (¬∃ n, r.content_length = ContentLengthHeader.value n ∧ MAX_CONTENT_LENGTH < n) ∧
      (r.content_length = ContentLengthHeader.malformed ∨ 500 < r.user_agent.length)) := by
  rcases hcl : r.content_length with _ | n | _
  · rw [sanitize_headers_absent r hcl] at hs
    split_ifs at hs with hua
    · injection hs with hs
      subst hs
      refine Or.inr ⟨rfl, ?_, Or.inr hua⟩
      rintro ⟨n, hn, _⟩
      exact absurd hn (by simp)
  · rw [sanitize_headers_value r n hcl] at hs
    split_ifs at hs with hn hua
    · injection hs with hs
      subst hs
      exact Or.inl ⟨rfl, n, rfl, hn⟩
    · injection hs with hs
      subst hs
      refine Or.inr ⟨rfl, ?_, Or.inr hua⟩
      rintro ⟨m, hm, hlt⟩
      injection hm with hm
      subst hm
      exact absurd hlt hn
  · rw [sanitize_headers_malformed r hcl] at hs
    injection hs with hs
    subst hs
    refine Or.inr ⟨rfl, ?_, Or.inl rfl⟩
    rintro ⟨n, hn, _⟩
    exact absurd hn (by simp)

/-- Claim C6 (amended): for GET and POST — but not OPTIONS — a request that
passes the rate limit has its `Content-Length` (when present) checked
against `MAX_CONTENT_LENGTH` and its `User-Agent` length against 500; a
violation answers 413 (oversized Content-Length) or 400 (unparsable
Content-Length or oversized User-Agent) and stops before the method branch. -/
theorem claim_size_checks (fs : String → FsAnswer) (s : RateState) (now : ℚ)
    (r : Request) (c : Nat)
    (hrl : (rate_limit_check s r.client_ip now).1 = Decision.allowed)
    (hs : sanitize_headers r = some c) :
    do_GET fs s now r =
      (⟨.err c, end_headers_added r.path⟩, (rate_limit_check s r.client_ip now).2) ∧
    do_POST s now r =
      (⟨.err c, end_headers_added r.path⟩, (rate_limit_check s r.client_ip now).2) ∧
    (c = 413 ↔ ∃ n, r.content_length = ContentLengthHeader.value n ∧
      MAX_CONTENT_LENGTH < n) ∧
    (c = 400 ↔
      (¬∃ n, r.content_length = ContentLengthHeader.value n ∧ MAX_CONTENT_LENGTH < n) ∧
      (r.content_length = ContentLengthHeader.malformed ∨ 500 < r.user_agent.length)) := by
  have hpair : rate_limit_check s r.client_ip now =
      (Decision.allowed, (rate_limit_check s r.client_ip now).2) := by
    rcases hE : rate_limit_check s r.client_ip now with ⟨d, s1⟩
    rw [hE] at hrl
    simp only [Prod.fst] at hrl
    rw [hrl]
  refine ⟨?_, ?_, ?_, ?_⟩
  · unfold do_GET
    rw [hpair]
    dsimp only
    rw [hs]
  · unfold do_POST
    rw [hpair]
    dsimp only
    rw [hs]
  · constructor
    · intro hc
      rcases sanitize_headers_some r c hs with ⟨_, hex⟩ | ⟨hc400, _, _⟩
      · exact hex
      · omega
    · intro hex
      rcases sanitize_headers_some r c hs with ⟨hc413, _⟩ | ⟨_, hne, _⟩
      · exact hc413
      · exact absurd hex hne
  · constructor
    · intro hc
      rcases sanitize_headers_some r c hs with ⟨hc413, _⟩ | ⟨_, hne, hor⟩
      · omega
      · exact ⟨hne, hor⟩
    · rintro ⟨hne, hor⟩
      rcases sanitize_headers_some r c hs with ⟨_, hex⟩ | ⟨hc400, _, _⟩
      · exact absurd hex hne
      · exact hc400

/-- A POST request declaring a Content-Length one byte over the limit. -/
def r_bigcl : Request :=
  ⟨"/upload", .value 10485761, "curl/8.4", "198.51.100.3"⟩

/-- Witness for amended C6: the oversized Content-Length stops a POST with
413 right after the rate check. -/
theorem claim_size_checks_witness :
    do_POST rs_empty 0 r_bigcl =
      (⟨.err 413, end_headers_added r_bigcl.path⟩,
        (rate_limit_check rs_empty r_bigcl.client_ip 0).2) :=
  (claim_size_checks (fun _ => FsAnswer.absent) rs_empty 0 r_bigcl 413
    (by decide) (by decide)).2.1

/-- Claim C9: `do_POST` always answers with an error code and mutates
nothing beyond the rate-limit bookkeeping, and whenever the rate and header
checks pass the code is exactly 405 — a POST never serves a file and never
acknowledges a shutdown, whatever the path (including `/shutdown`). -/
theorem claim_post_always_405 :
    (∀ s now r, ∃ c, do_POST s now r =
      (⟨.err c, end_headers_added r.path⟩, (rate_limit_check s r.client_ip now).2)) ∧
    (∀ s now r, (rate_limit_check s r.client_ip now).1 = Decision.allowed →
      sanitize_headers r = none →
      do_POST s now r =
        (⟨.err 405, end_headers_added r.path⟩, (rate_limit_check s r.client_ip now).2)) := by
  constructor
  · intro s now r
    unfold do_POST
    rcases hE : rate_limit_check s r.client_ip now with ⟨d, s1⟩
    dsimp only
    cases d
    · cases hsan : sanitize_headers r with
      | some c => exact ⟨c, rfl⟩
      | none => exact ⟨405, rfl⟩
    · exact ⟨429, rfl⟩
    · exact ⟨429, rfl⟩
  · intro s now r hrl hsan
    have hpair : rate_limit_check s r.client_ip now =
        (Decision.allowed, (rate_limit_check s r.client_ip now).2) := by
      rcases hE : rate_limit_check s r.client_ip now with ⟨d, s1⟩
      rw [hE] at hrl
      simp only [Prod.fst] at hrl
      rw [hrl]
    unfold do_POST
    rw [hpair]
    dsimp only
    rw [hsan]

/-- A POST aimed at the shutdown endpoint. -/
def r_post_shutdown : Request := ⟨"/shutdown", .absent, "curl/8.4", "198.51.100.4"⟩

/-- Witness for C9: a clean POST to `/shutdown` is answered 405. -/
theorem claim_post_always_405_witness :
    do_POST rs_empty 7 r_post_shutdown =
      (⟨.err 405, end_headers_added r_post_shutdown.path⟩,
        (rate_limit_check rs_empty r_post_shutdown.client_ip 7).2) :=
  claim_post_always_405.2 rs_empty 7 r_post_shutdown (by decide) (by decide)

end BubblesServer
